import Mathlib

/-!
Shallow embedding of `mistertango/client.py` (the `Mistertango` API client)
together with the cryptographic primitives it calls from the Python standard
library (`hashlib.sha256`, `hashlib.sha512`, `hmac`, `base64.b64encode`,
`urllib.parse.urlencode`).  Byte strings are `List Nat` with every element
below 256; machine words are `Nat` reduced modulo `2 ^ 32` or `2 ^ 64` where
the algorithms overflow.  Stateful methods are translated in state-passing
style: `self` is an explicit argument and the (unchanged) instance is returned
where a claim speaks about mutation.  The HTTPS transport (`requests.post`)
and the JSON decoder (`json.loads`) are external collaborators and enter the
model as function parameters.
-/

/-! ## UTF-8 encoding (`str.encode()` in Python) -/

/-- The UTF-8 encoding of a single Unicode scalar value, as bytes. -/
def utf8Char (c : Char) : List Nat :=
  let n := c.toNat
  if n < 128 then [n]
  else if n < 2048 then
    [192 ||| (n >>> 6), 128 ||| (n &&& 63)]
  else if n < 65536 then
    [224 ||| (n >>> 12), 128 ||| ((n >>> 6) &&& 63), 128 ||| (n &&& 63)]
  else
    [240 ||| (n >>> 18), 128 ||| ((n >>> 12) &&& 63),
     128 ||| ((n >>> 6) &&& 63), 128 ||| (n &&& 63)]

/-- The UTF-8 encoding of a string, as bytes: Python `s.encode()`. -/
def utf8Bytes (s : String) : List Nat :=
  s.data.flatMap utf8Char

theorem utf8Bytes_append (a b : String) :
    utf8Bytes (a ++ b) = utf8Bytes a ++ utf8Bytes b := by
  simp [utf8Bytes, String.data_append]

/-! ## Big-endian byte/word conversions -/

/-- Big-endian interpretation of a byte list as a number. -/
def bytesToWordBE (bs : List Nat) : Nat :=
  bs.foldl (fun a b => a * 256 + b) 0

/-- The `w` low-order bytes of `n`, most significant first. -/
def wordToBytesBE (w n : Nat) : List Nat :=
  (List.range w).reverse.map (fun i => (n / 256 ^ i) % 256)

theorem wordToBytesBE_length (w n : Nat) : (wordToBytesBE w n).length = w := by
  simp [wordToBytesBE]

/-! ## SHA-256 (`hashlib.sha256`, FIPS 180-4) -/

/-- Reduction to a 32-bit word. -/
def w32 (n : Nat) : Nat := n % 4294967296

/-- Right rotation of a 32-bit word. -/
def rotr32 (x n : Nat) : Nat := ((x >>> n) ||| (x <<< (32 - n))) % 4294967296

/-- The SHA-256 round constants (fractional parts of cube roots of the first
64 primes). -/
def sha256K : List Nat :=
  [1116352408, 1899447441, 3049323471, 3921009573,
   961987163, 1508970993, 2453635748, 2870763221,
   3624381080, 310598401, 607225278, 1426881987,
   1925078388, 2162078206, 2614888103, 3248222580,
   3835390401, 4022224774, 264347078, 604807628,
   770255983, 1249150122, 1555081692, 1996064986,
   2554220882, 2821834349, 2952996808, 3210313671,
   3336571891, 3584528711, 113926993, 338241895,
   666307205, 773529912, 1294757372, 1396182291,
   1695183700, 1986661051, 2177026350, 2456956037,
   2730485921, 2820302411, 3259730800, 3345764771,
   3516065817, 3600352804, 4094571909, 275423344,
   430227734, 506948616, 659060556, 883997877,
   958139571, 1322822218, 1537002063, 1747873779,
   1955562222, 2024104815, 2227730452, 2361852424,
   2428436474, 2756734187, 3204031479, 3329325298]

/-- A SHA-256 chaining state: eight 32-bit words. -/
structure Sha256State where
  s0 : Nat
  s1 : Nat
  s2 : Nat
  s3 : Nat
  s4 : Nat
  s5 : Nat
  s6 : Nat
  s7 : Nat

/-- The SHA-256 initial hash value. -/
def sha256IV : Sha256State :=
  ⟨1779033703, 3144134277, 1013904242, 2773480762,
   1359893119, 2600822924, 528734635, 1541459225⟩

/-- MD-strengthening padding: a `0x80` byte, zero bytes up to 56 mod 64, then
the bit length as an 8-byte big-endian integer. -/
def sha256Pad (msg : List Nat) : List Nat :=
  msg ++ [128] ++ List.replicate ((119 - msg.length % 64) % 64) 0
      ++ wordToBytesBE 8 (8 * msg.length)

/-- The first sixteen 32-bit message-schedule words of a 64-byte block. -/
def sha256Words (block : List Nat) : List Nat :=
  (List.range 16).map (fun i => bytesToWordBE ((block.drop (4 * i)).take 4))

/-- One message-schedule extension step: append `W[i]` for `16 ≤ i`. -/
def sha256ExtendStep (w : List Nat) (i : Nat) : List Nat :=
  let x15 := w.getD (i - 15) 0
  let x2 := w.getD (i - 2) 0
  let sig0 := (rotr32 x15 7) ^^^ (rotr32 x15 18) ^^^ (x15 >>> 3)
  let sig1 := (rotr32 x2 17) ^^^ (rotr32 x2 19) ^^^ (x2 >>> 10)
  w ++ [w32 (w.getD (i - 16) 0 + sig0 + w.getD (i - 7) 0 + sig1)]

/-- The full 64-word message schedule of one block. -/
def sha256Schedule (block : List Nat) : List Nat :=
  ((List.range 64).drop 16).foldl sha256ExtendStep (sha256Words block)

/-- One SHA-256 compression round on the working variables `a..h`, with round
constant `k` and schedule word `wi`. -/
def sha256Round (st : Sha256State) (k wi : Nat) : Sha256State :=
  let Sig1 := (rotr32 st.s4 6) ^^^ (rotr32 st.s4 11) ^^^ (rotr32 st.s4 25)
  let ch := (st.s4 &&& st.s5) ^^^ ((st.s4 ^^^ 4294967295) &&& st.s6)
  let t1 := w32 (st.s7 + Sig1 + ch + k + wi)
  let Sig0 := (rotr32 st.s0 2) ^^^ (rotr32 st.s0 13) ^^^ (rotr32 st.s0 22)
  let maj := (st.s0 &&& st.s1) ^^^ (st.s0 &&& st.s2) ^^^ (st.s1 &&& st.s2)
  let t2 := w32 (Sig0 + maj)
  ⟨w32 (t1 + t2), st.s0, st.s1, st.s2, w32 (st.s3 + t1), st.s4, st.s5, st.s6⟩

/-- Compression of one 64-byte block into the chaining state. -/
def sha256Compress (st : Sha256State) (block : List Nat) : Sha256State :=
  let w := sha256Schedule block
  let r := (List.range 64).foldl
    (fun s i => sha256Round s (sha256K.getD i 0) (w.getD i 0)) st
  ⟨w32 (st.s0 + r.s0), w32 (st.s1 + r.s1), w32 (st.s2 + r.s2),
   w32 (st.s3 + r.s3), w32 (st.s4 + r.s4), w32 (st.s5 + r.s5),
   w32 (st.s6 + r.s6), w32 (st.s7 + r.s7)⟩

/-- Iterated compression over the 64-byte blocks of `msg`; `n` is the block
count, so the recursion is structural. -/
def sha256Blocks (st : Sha256State) (msg : List Nat) : Nat → Sha256State
  | 0 => st
  | n + 1 => sha256Blocks (sha256Compress st (msg.take 64)) (msg.drop 64) n

/-- Serialization of the final state: eight words, big-endian, 4 bytes each. -/
def sha256Digest (st : Sha256State) : List Nat :=
  wordToBytesBE 4 st.s0 ++ wordToBytesBE 4 st.s1 ++ wordToBytesBE 4 st.s2 ++
  wordToBytesBE 4 st.s3 ++ wordToBytesBE 4 st.s4 ++ wordToBytesBE 4 st.s5 ++
  wordToBytesBE 4 st.s6 ++ wordToBytesBE 4 st.s7

/-- SHA-256 of a byte string: Python `hashlib.sha256(bs).digest()`. -/
def sha256 (msg : List Nat) : List Nat :=
  sha256Digest (sha256Blocks sha256IV (sha256Pad msg) ((sha256Pad msg).length / 64))

theorem sha256_length (msg : List Nat) : (sha256 msg).length = 32 := by
  simp [sha256, sha256Digest, wordToBytesBE_length]

/-! ## SHA-512 (`hashlib.sha512`, FIPS 180-4) -/

/-- Reduction to a 64-bit word. -/
def w64 (n : Nat) : Nat := n % 18446744073709551616

/-- Right rotation of a 64-bit word. -/
def rotr64 (x n : Nat) : Nat := ((x >>> n) ||| (x <<< (64 - n))) % 18446744073709551616

/-- The SHA-512 round constants (fractional parts of cube roots of the first
80 primes). -/
def sha512K : List Nat :=
  [4794697086780616226, 8158064640168781261, 13096744586834688815,
   16840607885511220156, 4131703408338449720, 6480981068601479193,
   10538285296894168987, 12329834152419229976, 15566598209576043074,
   1334009975649890238, 2608012711638119052, 6128411473006802146,
   8268148722764581231, 9286055187155687089, 11230858885718282805,
   13951009754708518548, 16472876342353939154, 17275323862435702243,
   1135362057144423861, 2597628984639134821, 3308224258029322869,
   5365058923640841347, 6679025012923562964, 8573033837759648693,
   10970295158949994411, 12119686244451234320, 12683024718118986047,
   13788192230050041572, 14330467153632333762, 15395433587784984357,
   489312712824947311, 1452737877330783856, 2861767655752347644,
   3322285676063803686, 5560940570517711597, 5996557281743188959,
   7280758554555802590, 8532644243296465576, 9350256976987008742,
   10552545826968843579, 11727347734174303076, 12113106623233404929,
   14000437183269869457, 14369950271660146224, 15101387698204529176,
   15463397548674623760, 17586052441742319658, 1182934255886127544,
   1847814050463011016, 2177327727835720531, 2830643537854262169,
   3796741975233480872, 4115178125766777443, 5681478168544905931,
   6601373596472566643, 7507060721942968483, 8399075790359081724,
   8693463985226723168, 9568029438360202098, 10144078919501101548,
   10430055236837252648, 11840083180663258601, 13761210420658862357,
   14299343276471374635, 14566680578165727644, 15097957966210449927,
   16922976911328602910, 17689382322260857208, 500013540394364858,
   748580250866718886, 1242879168328830382, 1977374033974150939,
   2944078676154940804, 3659926193048069267, 4368137639120453308,
   4836135668995329356, 5532061633213252278, 6448918945643986474,
   6902733635092675308, 7801388544844847127]

/-- A SHA-512 chaining state: eight 64-bit words. -/
structure Sha512State where
  s0 : Nat
  s1 : Nat
  s2 : Nat
  s3 : Nat
  s4 : Nat
  s5 : Nat
  s6 : Nat
  s7 : Nat

/-- The SHA-512 initial hash value. -/
def sha512IV : Sha512State :=
  ⟨7640891576956012808, 13503953896175478587, 4354685564936845355,
   11912009170470909681, 5840696475078001361, 11170449401992604703,
   2270897969802886507, 6620516959819538809⟩

/-- MD-strengthening padding: a `0x80` byte, zero bytes up to 112 mod 128,
then the bit length as a 16-byte big-endian integer. -/
def sha512Pad (msg : List Nat) : List Nat :=
  msg ++ [128] ++ List.replicate ((239 - msg.length % 128) % 128) 0
      ++ wordToBytesBE 16 (8 * msg.length)

/-- The first sixteen 64-bit message-schedule words of a 128-byte block. -/
def sha512Words (block : List Nat) : List Nat :=
  (List.range 16).map (fun i => bytesToWordBE ((block.drop (8 * i)).take 8))

/-- One message-schedule extension step: append `W[i]` for `16 ≤ i`. -/
def sha512ExtendStep (w : List Nat) (i : Nat) : List Nat :=
  let x15 := w.getD (i - 15) 0
  let x2 := w.getD (i - 2) 0
  let sig0 := (rotr64 x15 1) ^^^ (rotr64 x15 8) ^^^ (x15 >>> 7)
  let sig1 := (rotr64 x2 19) ^^^ (rotr64 x2 61) ^^^ (x2 >>> 6)
  w ++ [w64 (w.getD (i - 16) 0 + sig0 + w.getD (i - 7) 0 + sig1)]

/-- The full 80-word message schedule of one block. -/
def sha512Schedule (block : List Nat) : List Nat :=
  ((List.range 80).drop 16).foldl sha512ExtendStep (sha512Words block)

/-- One SHA-512 compression round on the working variables `a..h`, with round
constant `k` and schedule word `wi`. -/
def sha512Round (st : Sha512State) (k wi : Nat) : Sha512State :=
  let Sig1 := (rotr64 st.s4 14) ^^^ (rotr64 st.s4 18) ^^^ (rotr64 st.s4 41)
  let ch := (st.s4 &&& st.s5) ^^^ ((st.s4 ^^^ 18446744073709551615) &&& st.s6)
  let t1 := w64 (st.s7 + Sig1 + ch + k + wi)
  let Sig0 := (rotr64 st.s0 28) ^^^ (rotr64 st.s0 34) ^^^ (rotr64 st.s0 39)
  let maj := (st.s0 &&& st.s1) ^^^ (st.s0 &&& st.s2) ^^^ (st.s1 &&& st.s2)
  let t2 := w64 (Sig0 + maj)
  ⟨w64 (t1 + t2), st.s0, st.s1, st.s2, w64 (st.s3 + t1), st.s4, st.s5, st.s6⟩

/-- Compression of one 128-byte block into the chaining state. -/
def sha512Compress (st : Sha512State) (block : List Nat) : Sha512State :=
  let w := sha512Schedule block
  let r := (List.range 80).foldl
    (fun s i => sha512Round s (sha512K.getD i 0) (w.getD i 0)) st
  ⟨w64 (st.s0 + r.s0), w64 (st.s1 + r.s1), w64 (st.s2 + r.s2),
   w64 (st.s3 + r.s3), w64 (st.s4 + r.s4), w64 (st.s5 + r.s5),
   w64 (st.s6 + r.s6), w64 (st.s7 + r.s7)⟩

/-- Iterated compression over the 128-byte blocks of `msg`; `n` is the block
count, so the recursion is structural. -/
def sha512Blocks (st : Sha512State) (msg : List Nat) : Nat → Sha512State
  | 0 => st
  | n + 1 => sha512Blocks (sha512Compress st (msg.take 128)) (msg.drop 128) n

/-- Serialization of the final state: eight words, big-endian, 8 bytes each. -/
def sha512Digest (st : Sha512State) : List Nat :=
  wordToBytesBE 8 st.s0 ++ wordToBytesBE 8 st.s1 ++ wordToBytesBE 8 st.s2 ++
  wordToBytesBE 8 st.s3 ++ wordToBytesBE 8 st.s4 ++ wordToBytesBE 8 st.s5 ++
  wordToBytesBE 8 st.s6 ++ wordToBytesBE 8 st.s7

/-- SHA-512 of a byte string: Python `hashlib.sha512(bs).digest()`. -/
def sha512 (msg : List Nat) : List Nat :=
  sha512Digest (sha512Blocks sha512IV (sha512Pad msg) ((sha512Pad msg).length / 128))

theorem sha512_length (msg : List Nat) : (sha512 msg).length = 64 := by
  simp [sha512, sha512Digest, wordToBytesBE_length]

/-! ## HMAC (`hmac.new(key, msg, hashlib.sha512)`, RFC 2104) -/

/-- HMAC-SHA512: block size 128 bytes, inner pad byte `0x36`, outer pad byte
`0x5c`. -/
def hmacSha512 (key msg : List Nat) : List Nat :=
  let k0 := if 128 < key.length then sha512 key else key
  let kp := k0 ++ List.replicate (128 - k0.length) 0
  sha512 ((kp.map (fun b => b ^^^ 92)) ++
    sha512 ((kp.map (fun b => b ^^^ 54)) ++ msg))

/-! ## Base64 (`base64.b64encode`, RFC 4648) -/

/-- The standard base64 alphabet. -/
def base64Table : List Char :=
  "ABCDEFGHIJKLMNOPQRSTUVWXYZabcdefghijklmnopqrstuvwxyz0123456789+/".data

/-- The base64 character of a 6-bit value. -/
def b64c (n : Nat) : Char := base64Table.getD n 'A'

/-- Base64-encode a byte list three bytes at a time, `=`-padding the tail. -/
def base64Go : List Nat → List Char
  | [] => []
  | [a] => [b64c (a >>> 2), b64c ((a &&& 3) <<< 4), '=', '=']
  | [a, b] => [b64c (a >>> 2), b64c (((a &&& 3) <<< 4) ||| (b >>> 4)),
               b64c ((b &&& 15) <<< 2), '=']
  | a :: b :: c :: rest =>
      b64c (a >>> 2) :: b64c (((a &&& 3) <<< 4) ||| (b >>> 4)) ::
      b64c (((b &&& 15) <<< 2) ||| (c >>> 6)) :: b64c (c &&& 63) :: base64Go rest

/-- Base64 encoding as a string: Python `base64.b64encode(bs).decode()` (the
digits are ASCII, so decoding the bytes to text is the identity on them). -/
def b64encode (bs : List Nat) : String := String.mk (base64Go bs)

/-! ## Form encoding (`urllib.parse.urlencode` with `quote_plus`) -/

/-- Bytes `urllib.parse.quote` never encodes: ASCII alphanumerics and
`_`, `.`, `-`, `~`. -/
def byteSafe (b : Nat) : Bool :=
  (65 ≤ b && b ≤ 90) || (97 ≤ b && b ≤ 122) || (48 ≤ b && b ≤ 57) ||
  b == 95 || b == 46 || b == 45 || b == 126

/-- Uppercase hex digit. -/
def hexUpper (n : Nat) : Char := "0123456789ABCDEF".data.getD n '0'

/-- Percent-encoding of one byte, `%XX` with uppercase hex. -/
def pctEncodeByte (b : Nat) : List Char := ['%', hexUpper (b / 16), hexUpper (b % 16)]

/-- `urllib.parse.quote` on UTF-8 bytes: keep always-safe bytes and the extra
safe bytes, percent-encode the rest. -/
def quoteBytes (extraSafe : List Nat) (bs : List Nat) : List Char :=
  bs.flatMap (fun b =>
    if byteSafe b || extraSafe.contains b then [Char.ofNat b] else pctEncodeByte b)

/-- `urllib.parse.quote_plus`: like `quote`, but when the string contains a
space, the space is kept safe during quoting and then replaced by `+`. -/
def quote_plus (s : String) : String :=
  if s.data.contains ' ' then
    String.mk ((quoteBytes [32] (utf8Bytes s)).map (fun c => if c == ' ' then '+' else c))
  else
    String.mk (quoteBytes [] (utf8Bytes s))

/-- `urllib.parse.urlencode` over an insertion-ordered mapping (a Python dict
preserves insertion order): `quote_plus` each key and value, join pairs with
`=` and fields with `&`. -/
def urlencode (q : List (String × String)) : String :=
  String.intercalate "&" (q.map (fun kv => quote_plus kv.1 ++ "=" ++ quote_plus kv.2))

/-- Python dict item assignment `d[k] = v` on an insertion-ordered mapping:
overwrite in place when the key exists, append otherwise. -/
def dictInsert (d : List (String × String)) (k v : String) : List (String × String) :=
  if d.any (fun p => p.1 == k) then d.map (fun p => if p.1 == k then (k, v) else p)
  else d ++ [(k, v)]

/-! ## IEEE-754 binary64 arithmetic (CPython floats)

`_get_nonce` computes `(mktime(...) * 1e3 + microsecond / 1e3) * 10000` with
CPython floats, i.e. IEEE-754 binary64: every operation rounds its exact
result to 53 significant bits, nearest, ties to even.  Every value the
expression produces is a nonnegative normal-range dyadic rational, so a float
is embedded as its exact value `n * 2 ^ e` and each operation is exact
rational arithmetic followed by the rounding step. -/

/-- Floor of the base-2 logarithm, fuel-based so that it reduces by
structural recursion (fuel 128 covers every number below `2 ^ 128`). -/
def natLog2F : Nat → Nat → Nat
  | 0, _ => 0
  | fuel + 1, n => if n ≤ 1 then 0 else natLog2F fuel (n / 2) + 1

/-- Floor of the base-2 logarithm of a positive number. -/
def natLog2 (n : Nat) : Nat := natLog2F 128 n

/-- Round `x / y` (for `y > 0`) to the nearest integer, ties to even. -/
def rhe (x y : Nat) : Nat :=
  let d := x / y
  let r := x % y
  if 2 * r < y then d
  else if y < 2 * r then d + 1
  else if d % 2 = 0 then d else d + 1

/-- A nonnegative binary64 value, as its exact dyadic value `n * 2 ^ e`. -/
structure Fp where
  n : Nat
  e : Int
deriving DecidableEq

/-- Floor of the base-2 logarithm of the positive rational `a / b`: the
candidate `natLog2 a - natLog2 b` is off by at most one, fixed by comparing
with `2 ^ c`. -/
def ratFloorLog2 (a b : Nat) : Int :=
  let c : Int := (natLog2 a : Int) - (natLog2 b : Int)
  if 0 ≤ c then (if b * 2 ^ c.toNat ≤ a then c else c - 1)
  else (if b ≤ a * 2 ^ (-c).toNat then c else c - 1)

/-- Round the nonnegative rational `a / b` (for `b > 0`) to the nearest
binary64 value: scale to a 53-bit significand at exponent
`floor(log2(a/b)) - 52` and round it, ties to even.  Normal range only,
which covers every intermediate value of `_get_nonce` by a wide margin. -/
def flRat (a b : Nat) : Fp :=
  if a = 0 then ⟨0, 0⟩ else
  let e : Int := ratFloorLog2 a b - 52
  if 0 ≤ e then ⟨rhe a (b * 2 ^ e.toNat), e⟩
  else ⟨rhe (a * 2 ^ (-e).toNat) b, e⟩

/-- The rounded float product `x * k` for an exact small integer `k` (the
literals `1e3` and `1e4` are exactly representable). -/
def flMulNat (x : Fp) (k : Nat) : Fp :=
  if 0 ≤ x.e then flRat (x.n * k * 2 ^ x.e.toNat) 1
  else flRat (x.n * k) (2 ^ (-x.e).toNat)

/-- The rounded float sum `x + y`: align both operands at the smaller
exponent, add exactly, round. -/
def flAdd (x y : Fp) : Fp :=
  let m : Int := min x.e y.e
  let nx := x.n * 2 ^ (x.e - m).toNat
  let ny := y.n * 2 ^ (y.e - m).toNat
  if 0 ≤ m then flRat ((nx + ny) * 2 ^ m.toNat) 1
  else flRat (nx + ny) (2 ^ (-m).toNat)

/-- Python `int(...)` on a nonnegative float: truncation toward zero. -/
def fpTrunc (x : Fp) : Nat :=
  if 0 ≤ x.e then x.n * 2 ^ x.e.toNat else x.n / 2 ^ (-x.e).toNat

/-! ## The client (`mistertango/client.py`) -/

def DEFAULT_BASE_URL : String := "https://api.mistertango.com:8445"

def SUPPORTED_CURRENCIES : List String := ["EUR"]

/-- `http.HTTPStatus.OK`. -/
def HTTPStatus_OK : Nat := 200

/-- The client instance: the four fields assigned in `Mistertango.__init__`. -/
structure Mistertango where
  api_key : String
  secret_key : String
  username : String
  api_url : String

/-- Python `x or y` picks `y` when `x` is falsy; for the `api_url` argument
the falsy values are `None` and the empty string. -/
def orDefaultBaseUrl : Option String → String
  | none => DEFAULT_BASE_URL
  | some u => if u.isEmpty then DEFAULT_BASE_URL else u

/-- `Mistertango.__init__`. -/
def mistertango_init (api_key secret_key username : String)
    (api_url : Option String) : Mistertango :=
  ⟨api_key, secret_key, username, orDefaultBaseUrl api_url⟩

/-- `Mistertango._convert_username` (defined in the source, never called). -/
def convert_username (username : String) : String :=
  username.replace "@" "%40"

/-- `Mistertango._get_nonce`, value form.  `mktime(now.timetuple())` yields
the whole seconds since the epoch of the current local time (the time tuple
has second resolution, and `sec < 2 ^ 53` makes it an exact float) and
`now.microsecond` the sub-second microseconds; the instant is modelled by the
pair `(sec, usec)`.  CPython evaluates
`(mktime(...) * 1e3 + usec / 1e3) * 10000` in binary64, so each of the
multiplication by the exact literal `1e3`, the division by `1e3`, the
addition, and the multiplication by the exact literal `1e4` rounds to nearest
(ties to even); `int(...)` then truncates toward zero. -/
def get_nonce_val (sec usec : Nat) : Nat :=
  fpTrunc (flMulNat (flAdd (flRat (sec * 1000) 1) (flRat usec 1000)) 10000)

/-- `Mistertango._get_nonce`: `str(int(epochStr))`. -/
def get_nonce (sec usec : Nat) : String := toString (get_nonce_val sec usec)

/-- `Mistertango._make_signature`. -/
def make_signature (self : Mistertango) (nonce data endpoint : String) : String :=
  b64encode (hmacSha512 (utf8Bytes self.secret_key)
    (utf8Bytes endpoint ++ sha256 (utf8Bytes (nonce ++ data))))

/-- `Mistertango._prepare_headers`. -/
def prepare_headers (self : Mistertango) (nonce endpoint data : String) :
    List (String × String) :=
  [("X-API-KEY", self.api_key),
   ("X-API-SIGN", make_signature self nonce data endpoint),
   ("X-API-NONCE", nonce),
   ("Content-Type", "application/x-www-form-urlencoded")]

/-- `Mistertango._generate_url`. -/
def generate_url (self : Mistertango) (endpoint : String) : String :=
  self.api_url ++ endpoint

/-- An HTTPS POST as handed to `requests.post`: url, headers, body. -/
structure Request where
  url : String
  headers : List (String × String)
  body : String
deriving DecidableEq

/-- The Python exceptions the client raises: `PaymentException` (from the
package root) and the built-in `AttributeError`. -/
inductive PyError where
  | paymentException (msg : String)
  | attributeError (msg : String)
deriving DecidableEq

/-- Outcome of one public operation: the returned value or raised error,
together with the list of network calls issued on the way. -/
structure CallResult (J : Type) where
  result : Except PyError J
  calls : List Request

/-- The request `Mistertango._send_request` builds: the nonce is assigned into
`data`, the dict is form-encoded once into `post_params`, and that one string
is both signed (inside the headers) and used as the POST body. -/
def send_request_request (self : Mistertango) (nonce endpoint : String)
    (data : List (String × String)) : Request :=
  let post_params := urlencode (dictInsert data "nonce" nonce)
  ⟨generate_url self endpoint, prepare_headers self nonce endpoint post_params, post_params⟩

/-- `Mistertango._send_request`.  The transport (`requests.post`, returning
status code and body text) and the JSON decoder (`json.loads`) are external
collaborators passed as functions; the nonce is the one `_get_nonce` draws
for this call. -/
def send_request {J : Type} (self : Mistertango) (nonce : String)
    (transport : Request → Nat × String) (parse : String → J)
    (endpoint : String) (data : List (String × String)) : CallResult J :=
  let req := send_request_request self nonce endpoint data
  let resp := transport req
  ⟨if resp.1 ≠ HTTPStatus_OK
     then .error (.paymentException ("MisterTango error: " ++ resp.2))
     else .ok (parse resp.2),
   [req]⟩

/-- `Mistertango.get_balance`. -/
def get_balance {J : Type} (self : Mistertango) (nonce : String)
    (transport : Request → Nat × String) (parse : String → J) : CallResult J :=
  send_request self nonce transport parse "/v1/transaction/getBalance"
    [("username", self.username)]

/-- Python `repr` of a string: the text between single quotes. -/
def pyStrRepr (s : String) : String :=
  String.mk (Char.ofNat 39 :: s.data ++ [Char.ofNat 39])

/-- Python `repr` of a list of strings, as `str.format` renders it. -/
def pyListRepr (l : List String) : String :=
  "[" ++ String.intercalate ", " (l.map pyStrRepr) ++ "]"

/-- The message of the `AttributeError` raised by `send_money` for an
unsupported currency. -/
def currencyErrorMsg : String :=
  "Currency not supported. Please use any from this list: " ++
    pyListRepr SUPPORTED_CURRENCIES

/-- `Mistertango.send_money`.  `amount` is passed to `urlencode`, which
stringifies it; the model takes the already-stringified amount (binary
floating-point formatting lies outside the embedding; every claim over
`send_money` is independent of the amount text). -/
def send_money {J : Type} (self : Mistertango) (nonce : String)
    (transport : Request → Nat × String) (parse : String → J)
    (amount currency recipient account details : String) : CallResult J :=
  if currency ∈ SUPPORTED_CURRENCIES then
    send_request self nonce transport parse "/v1/transaction/sendMoney"
      [("username", self.username), ("amount", amount), ("currency", currency),
       ("recipient", recipient), ("account", account), ("details", details)]
  else
    ⟨.error (.attributeError currencyErrorMsg), []⟩

/-- State-passing translation of `get_balance`: the body reads fields of
`self` but contains no assignment to any of them, so the instance handed back
to the caller is the one passed in. -/
def get_balance_st {J : Type} (self : Mistertango) (nonce : String)
    (transport : Request → Nat × String) (parse : String → J) :
    CallResult J × Mistertango :=
  (get_balance self nonce transport parse, self)

/-- State-passing translation of `send_money`: as for `get_balance_st`, no
field of `self` is assigned in the body, on either branch of the currency
check. -/
def send_money_st {J : Type} (self : Mistertango) (nonce : String)
    (transport : Request → Nat × String) (parse : String → J)
    (amount currency recipient account details : String) :
    CallResult J × Mistertango :=
  (send_money self nonce transport parse amount currency recipient account details, self)

/-- Value of a header in a header mapping. -/
def headerValue (hs : List (String × String)) (k : String) : Option String :=
  (hs.find? (fun p => p.1 == k)).map (fun p => p.2)

/-! ## Helper lemmas -/

theorem byteSafe_lt {b : Nat} (h : byteSafe b = true) : b < 128 := by
  simp only [byteSafe, Bool.or_eq_true, Bool.and_eq_true, decide_eq_true_eq,
    beq_iff_eq] at h
  omega

theorem quoteBytes_safeChar (c : Char) (h : byteSafe c.toNat = true) :
    quoteBytes [] (utf8Char c) = [c] := by
  have hlt : c.toNat < 128 := byteSafe_lt h
  simp [utf8Char, hlt, quoteBytes, h, Char.ofNat_toNat]

theorem quoteBytes_atChar : quoteBytes [] (utf8Char (Char.ofNat 64)) = ['%', '4', '0'] := by
  decide

theorem quoteBytes_safe_or_at (l : List Char)
    (h : ∀ c ∈ l, c = '@' ∨ byteSafe c.toNat = true) :
    quoteBytes [] (l.flatMap utf8Char)
      = l.flatMap (fun c => if c = '@' then ['%', '4', '0'] else [c]) := by
  induction l with
  | nil => rfl
  | cons c t ih =>
    have hc := h c (List.mem_cons_self c t)
    have ht := ih (fun x hx => h x (List.mem_cons_of_mem c hx))
    rw [List.flatMap_cons, List.flatMap_cons]
    have hq : quoteBytes [] (utf8Char c ++ t.flatMap utf8Char)
        = quoteBytes [] (utf8Char c) ++ quoteBytes [] (t.flatMap utf8Char) := by
      simp [quoteBytes]
    rw [hq, ht]
    rcases hc with hc | hc
    · subst hc
      rw [show utf8Char '@' = utf8Char (Char.ofNat 64) from rfl, quoteBytes_atChar,
        if_pos rfl]
    · have hne : c ≠ '@' := by
        intro hEq
        rw [hEq] at hc
        exact absurd hc (by decide)
      rw [quoteBytes_safeChar c hc, if_neg hne]

theorem no_space_of_safe_or_at (l : List Char)
    (h : ∀ c ∈ l, c = '@' ∨ byteSafe c.toNat = true) : l.contains ' ' = false := by
  have hn : ' ' ∉ l := by
    intro hmem
    rcases h ' ' hmem with hs | hs
    · exact absurd hs (by decide)
    · exact absurd hs (by decide)
  simp [hn]

/-! ## The claims -/

/-- Modelled from the claim wording (spec section 4.2, claim C1): base64 of
HMAC-SHA512 keyed with the UTF-8 bytes of `secret_key`, over the UTF-8 bytes
of `endpoint` followed by the raw SHA-256 digest of the UTF-8 bytes of
`nonce` concatenated with `encoded_payload`. -/
def sign_spec (secret_key nonce encoded_payload endpoint : String) : String :=
  b64encode (hmacSha512 (utf8Bytes secret_key)
    (utf8Bytes endpoint ++ sha256 (utf8Bytes nonce ++ utf8Bytes encoded_payload)))

/-- C1: the signature `_make_signature` produces equals
base64(HMAC-SHA512(key = UTF-8 of `secret_key`, message = UTF-8 of `endpoint`
followed by the raw 32-byte SHA-256 digest of UTF-8 of
`nonce ++ encoded_payload`)), as a text string; the inner digest is indeed 32
bytes long. -/
theorem make_signature_is_sign_spec (self : Mistertango)
    (nonce encoded_payload endpoint : String) :
    make_signature self nonce encoded_payload endpoint
      = sign_spec self.secret_key nonce encoded_payload endpoint
    ∧ (sha256 (utf8Bytes nonce ++ utf8Bytes encoded_payload)).length = 32 := by
  refine ⟨?_, sha256_length _⟩
  rw [make_signature, sign_spec, utf8Bytes_append]

/-- C7: `_make_signature` is deterministic and depends on nothing but the
tuple (secret_key, nonce, encoded_payload, endpoint): two evaluations agree,
and two clients with the same `secret_key` (all other fields arbitrary)
produce the same signature. -/
theorem make_signature_deterministic (self other : Mistertango)
    (nonce data endpoint : String) (h : self.secret_key = other.secret_key) :
    make_signature self nonce data endpoint = make_signature self nonce data endpoint
    ∧ make_signature self nonce data endpoint = make_signature other nonce data endpoint := by
  exact ⟨rfl, by rw [make_signature, make_signature, h]⟩

/-- Witness for C7: two concrete clients sharing only the secret key. -/
theorem make_signature_deterministic_witness :
    (Mistertango.mk "k1" "s" "u1" "a1").secret_key
      = (Mistertango.mk "k2" "s" "u2" "a2").secret_key
    ∧ (make_signature ⟨"k1", "s", "u1", "a1"⟩ "1" "d" "/e"
         = make_signature ⟨"k1", "s", "u1", "a1"⟩ "1" "d" "/e"
       ∧ make_signature ⟨"k1", "s", "u1", "a1"⟩ "1" "d" "/e"
         = make_signature ⟨"k2", "s", "u2", "a2"⟩ "1" "d" "/e") :=
  ⟨rfl, make_signature_deterministic ⟨"k1", "s", "u1", "a1"⟩ ⟨"k2", "s", "u2", "a2"⟩
    "1" "d" "/e" rfl⟩

/-- C2: for every request issued by `get_balance` or by `send_money` (with
its supported currency), the string over which the `X-API-SIGN` signature was
computed is exactly the form-encoded body string handed to the transport: the
one `post_params` string is both signed and transmitted. -/
theorem signed_bytes_eq_transmitted {J : Type} (self : Mistertango) (nonce : String)
    (transport : Request → Nat × String) (parse : String → J)
    (amount recipient account details : String) :
    (∀ req ∈ (get_balance self nonce transport parse).calls,
       headerValue req.headers "X-API-SIGN"
         = some (make_signature self nonce req.body "/v1/transaction/getBalance"))
    ∧ (∀ req ∈ (send_money self nonce transport parse
          amount "EUR" recipient account details).calls,
       headerValue req.headers "X-API-SIGN"
         = some (make_signature self nonce req.body "/v1/transaction/sendMoney")) := by
  constructor
  · intro req hreq
    rw [List.mem_singleton.mp hreq]
    rfl
  · intro req hreq
    rw [List.mem_singleton.mp hreq]
    rfl

/-- Witness for C2: a concrete client and nonce; the issued request is the
one `_send_request` builds, and its signature is computed over its body. -/
theorem signed_bytes_eq_transmitted_witness :
    (send_request_request ⟨"k", "s", "u", "b"⟩ "7" "/v1/transaction/getBalance"
        [("username", "u")]
      ∈ (get_balance (Mistertango.mk "k" "s" "u" "b") "7"
          (fun _ => (200, "ok")) id).calls)
    ∧ headerValue (send_request_request ⟨"k", "s", "u", "b"⟩ "7"
        "/v1/transaction/getBalance" [("username", "u")]).headers "X-API-SIGN"
      = some (make_signature ⟨"k", "s", "u", "b"⟩ "7"
          (send_request_request ⟨"k", "s", "u", "b"⟩ "7"
            "/v1/transaction/getBalance" [("username", "u")]).body
          "/v1/transaction/getBalance") := by
  have hmem : send_request_request ⟨"k", "s", "u", "b"⟩ "7"
      "/v1/transaction/getBalance" [("username", "u")]
      ∈ (get_balance (Mistertango.mk "k" "s" "u" "b") "7"
          (fun _ => (200, "ok")) id).calls := List.mem_singleton.mpr rfl
  exact ⟨hmem,
    (signed_bytes_eq_transmitted ⟨"k", "s", "u", "b"⟩ "7" (fun _ => (200, "ok")) id
      "1" "r" "a" "d").1 _ hmem⟩

/-- C10: `nonce` is assigned into the parameter dict after the
operation-specific fields, so it is the last field of the encoded body, and
the nonce in the `X-API-NONCE` header is the same string embedded in the body
and handed to the signer — for both `get_balance` and `send_money`. -/
theorem nonce_last_field_and_headers (self : Mistertango) (nonce : String)
    (amount recipient account details : String) :
    dictInsert [("username", self.username)] "nonce" nonce
      = [("username", self.username), ("nonce", nonce)]
    ∧ (dictInsert [("username", self.username)] "nonce" nonce).getLast?
      = some ("nonce", nonce)
    ∧ (send_request_request self nonce "/v1/transaction/getBalance"
        [("username", self.username)]).body
      = urlencode [("username", self.username), ("nonce", nonce)]
    ∧ headerValue (send_request_request self nonce "/v1/transaction/getBalance"
        [("username", self.username)]).headers "X-API-NONCE" = some nonce
    ∧ headerValue (send_request_request self nonce "/v1/transaction/getBalance"
        [("username", self.username)]).headers "X-API-SIGN"
      = some (make_signature self nonce
          (urlencode [("username", self.username), ("nonce", nonce)])
          "/v1/transaction/getBalance")
    ∧ dictInsert [("username", self.username), ("amount", amount),
        ("currency", "EUR"), ("recipient", recipient), ("account", account),
        ("details", details)] "nonce" nonce
      = [("username", self.username), ("amount", amount), ("currency", "EUR"),
         ("recipient", recipient), ("account", account), ("details", details),
         ("nonce", nonce)]
    ∧ (dictInsert [("username", self.username), ("amount", amount),
        ("currency", "EUR"), ("recipient", recipient), ("account", account),
        ("details", details)] "nonce" nonce).getLast? = some ("nonce", nonce)
    ∧ headerValue (send_request_request self nonce "/v1/transaction/sendMoney"
        [("username", self.username), ("amount", amount), ("currency", "EUR"),
         ("recipient", recipient), ("account", account),
         ("details", details)]).headers "X-API-NONCE" = some nonce := by
  exact ⟨rfl, rfl, rfl, rfl, rfl, rfl, rfl, rfl⟩

/-- C3: with a transport answering (status, text), a 200 status makes the
operation return the JSON value parsed from the body (no schema validation:
whatever `parse` yields), and any other status — 4xx and 5xx alike — makes it
fail with a `PaymentError` (there is no other outcome), for both operations. -/
theorem response_classification {J : Type} (self : Mistertango) (nonce : String)
    (parse : String → J) (status : Nat) (text : String)
    (amount recipient account details : String) :
    (get_balance self nonce (fun _ => (status, text)) parse).result
      = (if status = 200 then .ok (parse text)
         else .error (.paymentException ("MisterTango error: " ++ text)))
    ∧ (send_money self nonce (fun _ => (status, text)) parse
        amount "EUR" recipient account details).result
      = (if status = 200 then .ok (parse text)
         else .error (.paymentException ("MisterTango error: " ++ text))) := by
  constructor <;> by_cases h : status = 200 <;>
    simp [get_balance, send_money, send_request, SUPPORTED_CURRENCIES,
      HTTPStatus_OK, h]

/-- C4, counterexample: a mocked transport returning status 400 and body
"bad signature" makes `get_balance` fail with a `PaymentException` whose
message is "MisterTango error: bad signature" — not the raw body verbatim, as
the claim states. -/
theorem payment_error_verbatim_cex :
    (get_balance (Mistertango.mk "k" "s" "u" "b") "7"
        (fun _ => (400, "bad signature")) id).result
      = .error (.paymentException "MisterTango error: bad signature")
    ∧ "MisterTango error: bad signature" ≠ "bad signature" := by
  exact ⟨rfl, by decide⟩

/-- C4, amended: for every non-200 response the raised `PaymentException`
carries the raw body text prefixed by "MisterTango error: " — the body
appears verbatim as a suffix of the message, not as the whole message. -/
theorem payment_error_message_amended {J : Type} (self : Mistertango)
    (nonce : String) (parse : String → J) (endpoint : String)
    (data : List (String × String)) (status : Nat) (text : String)
    (h : status ≠ 200) :
    (send_request self nonce (fun _ => (status, text)) parse endpoint data).result
      = .error (.paymentException ("MisterTango error: " ++ text)) := by
  simp [send_request, HTTPStatus_OK, h]

/-- Witness for the amended C4: a concrete 400 response. -/
theorem payment_error_message_amended_witness :
    (400 : Nat) ≠ 200
    ∧ (send_request (Mistertango.mk "k" "s" "u" "b") "7"
        (fun _ => ((400 : Nat), "bad signature")) id "/e" []).result
      = .error (.paymentException ("MisterTango error: " ++ "bad signature")) :=
  ⟨by decide, payment_error_message_amended ⟨"k", "s", "u", "b"⟩ "7" id "/e" []
    400 "bad signature" (by decide)⟩

/-- C5: a currency outside `SUPPORTED_CURRENCIES` makes `send_money` fail
immediately with the unsupported-currency error (an `AttributeError`, a
constructor distinct from `PaymentException`), with no network call issued
and a result independent of the nonce that would have been generated; the
currency "EUR" passes the check and proceeds to dispatch, issuing exactly the
one request. -/
theorem send_money_unsupported_currency {J : Type} (self : Mistertango)
    (nonce nonce2 : String) (transport : Request → Nat × String)
    (parse : String → J) (amount currency recipient account details : String)
    (h : currency ∉ SUPPORTED_CURRENCIES) :
    send_money self nonce transport parse amount currency recipient account details
      = ⟨.error (.attributeError currencyErrorMsg), []⟩
    ∧ send_money self nonce transport parse amount currency recipient account details
      = send_money self nonce2 transport parse amount currency recipient account details
    ∧ (∀ m mp : String, PyError.attributeError m ≠ PyError.paymentException mp)
    ∧ send_money self nonce transport parse amount "EUR" recipient account details
      = send_request self nonce transport parse "/v1/transaction/sendMoney"
          [("username", self.username), ("amount", amount), ("currency", "EUR"),
           ("recipient", recipient), ("account", account), ("details", details)]
    ∧ (send_money self nonce transport parse amount "EUR" recipient account
        details).calls
      = [send_request_request self nonce "/v1/transaction/sendMoney"
          [("username", self.username), ("amount", amount), ("currency", "EUR"),
           ("recipient", recipient), ("account", account), ("details", details)]] := by
  refine ⟨?_, ?_, ?_, ?_, ?_⟩
  · simp [send_money, h]
  · simp [send_money, h]
  · intro m mp hEq
    exact PyError.noConfusion hEq
  · simp [send_money, SUPPORTED_CURRENCIES]
  · rfl

/-- Witness for C5: currency "USD" is not supported. -/
theorem send_money_unsupported_currency_witness :
    ("USD" ∉ SUPPORTED_CURRENCIES)
    ∧ (send_money (Mistertango.mk "k" "s" "u" "b") "7" (fun _ => (200, "ok")) id
          "1" "USD" "r" "a" "d"
        = ⟨.error (.attributeError currencyErrorMsg), []⟩
      ∧ send_money (Mistertango.mk "k" "s" "u" "b") "7" (fun _ => (200, "ok")) id
          "1" "USD" "r" "a" "d"
        = send_money (Mistertango.mk "k" "s" "u" "b") "8" (fun _ => (200, "ok")) id
          "1" "USD" "r" "a" "d"
      ∧ (∀ m mp : String, PyError.attributeError m ≠ PyError.paymentException mp)
      ∧ send_money (Mistertango.mk "k" "s" "u" "b") "7" (fun _ => (200, "ok")) id
          "1" "EUR" "r" "a" "d"
        = send_request (Mistertango.mk "k" "s" "u" "b") "7" (fun _ => (200, "ok")) id
            "/v1/transaction/sendMoney"
            [("username", (Mistertango.mk "k" "s" "u" "b").username), ("amount", "1"),
             ("currency", "EUR"), ("recipient", "r"), ("account", "a"), ("details", "d")]
      ∧ (send_money (Mistertango.mk "k" "s" "u" "b") "7" (fun _ => (200, "ok")) id
            "1" "EUR" "r" "a" "d").calls
        = [send_request_request (Mistertango.mk "k" "s" "u" "b") "7"
            "/v1/transaction/sendMoney"
            [("username", (Mistertango.mk "k" "s" "u" "b").username), ("amount", "1"),
             ("currency", "EUR"), ("recipient", "r"), ("account", "a"),
             ("details", "d")]]) :=
  ⟨by decide, send_money_unsupported_currency ⟨"k", "s", "u", "b"⟩ "7" "8"
    (fun _ => (200, "ok")) id "1" "USD" "r" "a" "d" (by decide)⟩

set_option maxRecDepth 100000 in
/-- C6, evaluated at the failing input: at the instant
`sec = 1760246000, usec = 5`, the binary64 evaluation `_get_nonce` performs
returns the string "17602460000000048", while the exact truncation the claim
describes — `int((sec * 1e3 + usec / 1e3) * 10000)` in real arithmetic, i.e.
`sec * 10000000 + usec * 10` — is `17602460000000050`: the product of about
`1.76 * 10 ^ 16` exceeds `2 ^ 53`, so double rounding deviates from the
claimed exact value (the float model below matches CPython on this and on
the sampled reference instants). -/
theorem get_nonce_float_deviation :
    get_nonce 1760246000 5 = "17602460000000048"
    ∧ 1760246000 * 10000000 + 5 * 10 = 17602460000000050
    ∧ (⌊((1760246000 : ℚ) * 1000 + (5 : ℚ) / 1000) * 10000⌋ : ℤ) = 17602460000000050
    ∧ ("17602460000000048" : String) ≠ "17602460000000050" := by
  refine ⟨by decide, by norm_num, ?_, by decide⟩
  have h : (((1760246000 : ℚ) * 1000 + (5 : ℚ) / 1000) * 10000 : ℚ)
      = ((17602460000000050 : ℕ) : ℚ) := by push_cast; ring_nf
  rw [h, Int.floor_natCast]
  norm_cast

/-- C8, counterexample: for the username "a b@c" (which contains "@"), the
transmitted body of `get_balance` carries the username as "a+b%40c" — the
space is form-encoded to "+" — and not as "a b%40c", which is what encoding
only the "@" and leaving every other character untouched would give. -/
theorem username_encoding_cex :
    ((get_balance (Mistertango.mk "k" "s" "a b@c" "B") "17"
        (fun _ => (200, "ok")) id).calls.map Request.body)
      = ["username=a+b%40c&nonce=17"]
    ∧ "username=a+b%40c&nonce=17" ≠ "username=a b%40c&nonce=17" := by
  exact ⟨rfl, by decide⟩

/-- C8, amended: the username is carried through `urlencode`/`quote_plus`
(the unused `_convert_username` plays no part), which percent-encodes every
byte outside the always-safe set, not just "@".  For a username whose
characters are each "@" or always-safe, the carried value is exactly the
username with each "@" replaced by "%40", embedded in the transmitted
`get_balance` body. -/
theorem username_encoding_amended (api sec url nonce u : String)
    (h : ∀ c ∈ u.data, c = '@' ∨ byteSafe c.toNat = true) :
    quote_plus u
      = String.mk (u.data.flatMap (fun c => if c = '@' then ['%', '4', '0'] else [c]))
    ∧ (send_request_request (Mistertango.mk api sec u url) nonce
        "/v1/transaction/getBalance" [("username", u)]).body
      = "username=" ++ quote_plus u ++ "&nonce=" ++ quote_plus nonce := by
  constructor
  · rw [quote_plus]
    rw [no_space_of_safe_or_at u.data h]
    simp only [Bool.false_eq_true, if_false]
    rw [utf8Bytes, quoteBytes_safe_or_at u.data h]
  · show urlencode [("username", u), ("nonce", nonce)]
        = "username=" ++ quote_plus u ++ "&nonce=" ++ quote_plus nonce
    rw [urlencode]
    simp only [List.map_cons, List.map_nil]
    rw [show quote_plus "username" = "username" from rfl,
      show quote_plus "nonce" = "nonce" from rfl]
    rw [show String.intercalate "&" ["username" ++ "=" ++ quote_plus u,
         "nonce" ++ "=" ++ quote_plus nonce]
       = ("username" ++ "=" ++ quote_plus u) ++ "&" ++ ("nonce" ++ "=" ++ quote_plus nonce)
       from rfl]
    apply String.ext
    simp [String.data_append]

/-- Witness for the amended C8: the username "a.b@c", whose characters are
each always-safe or "@". -/
theorem username_encoding_amended_witness :
    (∀ c ∈ "a.b@c".data, c = '@' ∨ byteSafe c.toNat = true)
    ∧ (quote_plus "a.b@c"
        = String.mk ("a.b@c".data.flatMap
            (fun c => if c = '@' then ['%', '4', '0'] else [c]))
      ∧ (send_request_request (Mistertango.mk "k" "s" "a.b@c" "B") "1"
          "/v1/transaction/getBalance" [("username", "a.b@c")]).body
        = "username=" ++ quote_plus "a.b@c" ++ "&nonce=" ++ quote_plus "1") :=
  ⟨by decide, username_encoding_amended "k" "s" "B" "1" "a.b@c" (by decide)⟩

/-- C9: no public operation mutates the client: after `get_balance` or
`send_money` (whatever the transport answers and whichever branch the
currency check takes), the instance is the one built at construction, with
`api_key`, `secret_key`, `username` and `api_url` exactly as `__init__` set
them. -/
theorem client_state_immutable {J : Type} (api_key secret_key username : String)
    (api_url : Option String) (nonce : String)
    (transport : Request → Nat × String) (parse : String → J)
    (amount currency recipient account details : String) :
    (get_balance_st (mistertango_init api_key secret_key username api_url)
        nonce transport parse).2
      = mistertango_init api_key secret_key username api_url
    ∧ (send_money_st (mistertango_init api_key secret_key username api_url)
        nonce transport parse amount currency recipient account details).2
      = mistertango_init api_key secret_key username api_url
    ∧ (get_balance_st (mistertango_init api_key secret_key username api_url)
        nonce transport parse).2.api_key = api_key
    ∧ (get_balance_st (mistertango_init api_key secret_key username api_url)
        nonce transport parse).2.secret_key = secret_key
    ∧ (get_balance_st (mistertango_init api_key secret_key username api_url)
        nonce transport parse).2.username = username
    ∧ (get_balance_st (mistertango_init api_key secret_key username api_url)
        nonce transport parse).2.api_url = orDefaultBaseUrl api_url := by
  exact ⟨rfl, rfl, rfl, rfl, rfl, rfl⟩
